import Mathlib

/-!
Verification development for the in-memory storage engine of the
jbvmio/modules repository.

The embedding models the storage core:

* request type constants and the request struct (storage/storage.go,
  the request iteration with the labelled switch validator),
* the hierarchical store (Index / Database / Data, storage/storage.go),
* the worker handlers of storage/inmemory/inmemory.go
  (addIndex, addData, clearData, deleteEntry, fetchEntryList, fetchEntry),
* the worker dispatch table of requestWorker and the routing switch of
  mainLoop (storage/inmemory/module.go),
* the Validate switch of the Request (the labelled switch with
  fallthrough), and
* the team-based Datastore addIndex handler (inmemory/handlers.go).

Go maps are modelled as association lists with unique keys; a Go `nil`
pointer dereference or `nil` interface method call is modelled by the
`crashed` flag of a handler result.  The reply channel is modelled by its
observable events: values sent on it and the close operation.
-/

namespace Modules

/-- Request type tag, `type RequestConstant int` in storage/storage.go. -/
abbrev RequestConstant := Int

/-- StorageSetIndex is the request type to add an index (value 0). -/
def StorageSetIndex : RequestConstant := 0

/-- StorageSetData is the request type to store an entry (value 1). -/
def StorageSetData : RequestConstant := 1

/-- StorageSetEntry is the later iterations name for the same constant
value 1 (the set-entry operation). -/
def StorageSetEntry : RequestConstant := 1

/-- StorageSetDeleteEntry is the request type to remove an entry (value 2). -/
def StorageSetDeleteEntry : RequestConstant := 2

/-- StorageFetchIndexes is the request type to list index names (value 3). -/
def StorageFetchIndexes : RequestConstant := 3

/-- StorageFetchEntries is the request type to list entry keys (value 4). -/
def StorageFetchEntries : RequestConstant := 4

/-- StorageFetchEntry is the request type to fetch one entry (value 5). -/
def StorageFetchEntry : RequestConstant := 5

/-- StorageClearData is the request type to clear an entry in place (value 6). -/
def StorageClearData : RequestConstant := 6

/-- Error codes from errors.go. -/
abbrev ErrCode := Nat

/-- ErrUnknownIndex error code. -/
def ErrUnknownIndex : ErrCode := 0

/-- ErrUnknownDB error code. -/
def ErrUnknownDB : ErrCode := 1

/-- ErrUnknownIndexOrDB error code. -/
def ErrUnknownIndexOrDB : ErrCode := 2

/-- ErrUnknownEntry error code. -/
def ErrUnknownEntry : ErrCode := 3

/-- Go map lookup on a string-keyed association list. -/
def mapLookup {β : Type} (m : List (String × β)) (k : String) : Option β :=
  match m with
  | [] => none
  | (k1, v) :: rest => if k1 = k then some v else mapLookup rest k

/-- Go map assignment `m[k] = v`: overwrite the binding in place, or append. -/
def mapInsert {β : Type} (m : List (String × β)) (k : String) (v : β) :
    List (String × β) :=
  match m with
  | [] => [(k, v)]
  | (k1, v1) :: rest =>
    if k1 = k then (k, v) :: rest else (k1, v1) :: mapInsert rest k v

/-- Go map `delete(m, k)`. -/
def mapErase {β : Type} (m : List (String × β)) (k : String) :
    List (String × β) :=
  match m with
  | [] => []
  | (k1, v1) :: rest =>
    if k1 = k then mapErase rest k else (k1, v1) :: mapErase rest k

/-- storage.Request.  The reply channel is modelled by its presence
(`hasReply`, the Go `Reply != nil`); the embedded Object interface value may
be nil (`none`). -/
structure Request (α : Type) where
  RequestType : RequestConstant
  hasReply : Bool
  Index : String
  DB : String
  Entry : String
  Timestamp : Int
  Object : Option α
deriving DecidableEq

/-- storage.Data: the stored wrapper holding the (possibly nil) Object. -/
structure Data (α : Type) where
  Object : Option α
deriving DecidableEq

/-- storage.Database: entry key to stored Data (locks are elided: every
handler runs single-threadedly inside one worker). -/
structure Database (α : Type) where
  entries : List (String × Data α)
deriving DecidableEq

/-- storage.Index: database name to Database. -/
structure Index (α : Type) where
  db : List (String × Database α)
deriving DecidableEq

/-- storage.NewDatabase. -/
def NewDatabase {α : Type} : Database α := ⟨[]⟩

/-- storage.NewIndex. -/
def NewIndex {α : Type} : Index α := ⟨[]⟩

/-- Index.GetDB: the database, or the typed ErrUnknownDB error. -/
def Index.GetDB {α : Type} (i : Index α) (name : String) :
    Except ErrCode (Database α) :=
  match mapLookup i.db name with
  | none => Except.error ErrUnknownDB
  | some d => Except.ok d

/-- Index.AddDB. -/
def Index.AddDB {α : Type} (i : Index α) (name : String) (d : Database α) :
    Index α :=
  ⟨mapInsert i.db name d⟩

/-- Database.GetEntry: the stored Data, or the typed ErrUnknownEntry error. -/
def Database.GetEntry {α : Type} (db : Database α) (k : String) :
    Except ErrCode (Data α) :=
  match mapLookup db.entries k with
  | none => Except.error ErrUnknownEntry
  | some d => Except.ok d

/-- Database.AddEntry (overwrites an existing key). -/
def Database.AddEntry {α : Type} (db : Database α) (k : String) (d : Data α) :
    Database α :=
  ⟨mapInsert db.entries k d⟩

/-- Database.DeleteEntry. -/
def Database.DeleteEntry {α : Type} (db : Database α) (k : String) :
    Database α :=
  ⟨mapErase db.entries k⟩

/-- The InMemoryModule state relevant to the handlers: the `indexes`
map (map[string]*storage.Index) and the autoIndex flag. -/
structure InMemoryModule (α : Type) where
  indexes : List (String × Index α)
  autoIndex : Bool
deriving DecidableEq

/-- A value a handler can send on the reply channel: a fetched Data
pointer or a list of names. -/
inductive ReplyVal (α : Type) where
  | dataVal (d : Data α)
  | listVal (l : List String)
deriving DecidableEq

/-- An observable event on the reply channel of a request. -/
inductive ReplyEvent (α : Type) where
  | sent (v : ReplyVal α)
  | closed
deriving DecidableEq

/-- Result of running one handler: the new module state, the events on the
reply channel of the request, in order, and whether the handler crashed with a
runtime nil dereference.  A Go panic still runs the deferred
`close(request.Reply)` calls registered before it, so a crash inside a
fetch handler leaves a close event. -/
structure HandlerResult (α : Type) where
  state : InMemoryModule α
  replyEvents : List (ReplyEvent α)
  crashed : Bool
deriving DecidableEq

/-- inmemory.go addIndex: an existing index is warned about and left
unchanged, a missing one is created fresh. -/
def addIndex {α : Type} (imm : InMemoryModule α) (r : Request α) :
    HandlerResult α :=
  match mapLookup imm.indexes r.Index with
  | some _ => ⟨imm, [], false⟩
  | none => ⟨{ imm with indexes := mapInsert imm.indexes r.Index NewIndex }, [], false⟩

/-- The tail of inmemory.go addData after the auto-index prologue: look the
index up again, get or create the database, and overwrite the entry with
`&storage.Data{request.Object}`.  A missing index here would be a Go nil
dereference (crash); with the prologue it is unreachable. -/
def addDataBody {α : Type} (imm : InMemoryModule α) (r : Request α) :
    HandlerResult α :=
  match mapLookup imm.indexes r.Index with
  | none => ⟨imm, [], true⟩
  | some index =>
    match index.GetDB r.DB with
    | Except.error e =>
      if e = ErrUnknownDB then
        let idx2 := index.AddDB r.DB (NewDatabase.AddEntry r.Entry ⟨r.Object⟩)
        ⟨{ imm with indexes := mapInsert imm.indexes r.Index idx2 }, [], false⟩
      else ⟨imm, [], false⟩
    | Except.ok db =>
      let idx2 := index.AddDB r.DB (db.AddEntry r.Entry ⟨r.Object⟩)
      ⟨{ imm with indexes := mapInsert imm.indexes r.Index idx2 }, [], false⟩

/-- inmemory.go addData: on an unknown index, drop the request when
autoIndex is off, otherwise auto-add the index first. -/
def addData {α : Type} (imm : InMemoryModule α) (r : Request α) :
    HandlerResult α :=
  match mapLookup imm.indexes r.Index with
  | none =>
    if imm.autoIndex then addDataBody (addIndex imm r).state r
    else ⟨imm, [], false⟩
  | some _ => addDataBody imm r

/-- inmemory.go clearData, with `cf` the ClearData capability of the Object.
An unknown index or database is logged and dropped; but for a missing
entry the handler logs the error and then still calls `data.ClearData()`
on the nil Data pointer: a crash.  A present entry with a nil Object also
crashes (nil interface method call). -/
def clearData {α : Type} (cf : α → α) (imm : InMemoryModule α)
    (r : Request α) : HandlerResult α :=
  match mapLookup imm.indexes r.Index with
  | none => ⟨imm, [], false⟩
  | some index =>
    match index.GetDB r.DB with
    | Except.error _ => ⟨imm, [], false⟩
    | Except.ok db =>
      match db.GetEntry r.Entry with
      | Except.error _ => ⟨imm, [], true⟩
      | Except.ok d =>
        match d.Object with
        | none => ⟨imm, [], true⟩
        | some o =>
          let idx2 := index.AddDB r.DB (db.AddEntry r.Entry ⟨some (cf o)⟩)
          ⟨{ imm with indexes := mapInsert imm.indexes r.Index idx2 }, [], false⟩

/-- inmemory.go deleteEntry.  `imm.indexes[request.Index].GetDB` on an
unknown index is a Go nil pointer dereference: a crash. -/
def deleteEntry {α : Type} (imm : InMemoryModule α) (r : Request α) :
    HandlerResult α :=
  match mapLookup imm.indexes r.Index with
  | none => ⟨imm, [], true⟩
  | some index =>
    match index.GetDB r.DB with
    | Except.error _ => ⟨imm, [], false⟩
    | Except.ok db =>
      match db.GetEntry r.Entry with
      | Except.error _ => ⟨imm, [], false⟩
      | Except.ok _ =>
        let idx2 := index.AddDB r.DB (db.DeleteEntry r.Entry)
        ⟨{ imm with indexes := mapInsert imm.indexes r.Index idx2 }, [], false⟩

/-- inmemory.go fetchEntryList: `defer close(request.Reply)` runs on every
path, including the nil-index crash path. -/
def fetchEntryList {α : Type} (imm : InMemoryModule α) (r : Request α) :
    HandlerResult α :=
  match mapLookup imm.indexes r.Index with
  | none => ⟨imm, [ReplyEvent.closed], true⟩
  | some index =>
    match index.GetDB r.DB with
    | Except.error _ => ⟨imm, [ReplyEvent.closed], false⟩
    | Except.ok db =>
      ⟨imm, [ReplyEvent.sent (ReplyVal.listVal (db.entries.map Prod.fst)),
        ReplyEvent.closed], false⟩

/-- inmemory.go fetchEntry: on success the Data is sent and then the
deferred close runs; lookup errors close without a value. -/
def fetchEntry {α : Type} (imm : InMemoryModule α) (r : Request α) :
    HandlerResult α :=
  match mapLookup imm.indexes r.Index with
  | none => ⟨imm, [ReplyEvent.closed], true⟩
  | some index =>
    match index.GetDB r.DB with
    | Except.error _ => ⟨imm, [ReplyEvent.closed], false⟩
    | Except.ok db =>
      match db.GetEntry r.Entry with
      | Except.error _ => ⟨imm, [ReplyEvent.closed], false⟩
      | Except.ok d =>
        ⟨imm, [ReplyEvent.sent (ReplyVal.dataVal d), ReplyEvent.closed], false⟩

/-- The requestTypeMap of inmemory.go requestWorker.  Note: it has no
entry for StorageFetchIndexes. -/
def requestTypeMap {α : Type} (cf : α → α) (t : RequestConstant) :
    Option (InMemoryModule α → Request α → HandlerResult α) :=
  if t = StorageSetIndex then some addIndex
  else if t = StorageSetData then some addData
  else if t = StorageClearData then some (clearData cf)
  else if t = StorageSetDeleteEntry then some deleteEntry
  else if t = StorageFetchEntries then some fetchEntryList
  else if t = StorageFetchEntry then some fetchEntry
  else none

/-- One iteration of the requestWorker loop: look the handler up in the
type map and run it; a type with no handler is skipped silently (no log,
no reply close). -/
def requestWorkerStep {α : Type} (cf : α → α) (imm : InMemoryModule α)
    (r : Request α) : HandlerResult α :=
  match requestTypeMap cf r.RequestType with
  | some h => h imm r
  | none => ⟨imm, [], false⟩

/-- The full lookup chain index name / database name / entry key into a
module state; `some d` exactly when all three levels resolve. -/
def storedEntry {α : Type} (imm : InMemoryModule α) (i d k : String) :
    Option (Data α) :=
  match mapLookup imm.indexes i with
  | none => none
  | some idx =>
    match mapLookup idx.db d with
    | none => none
    | some db => mapLookup db.entries k

/-- Request.Validate, fetch branch, default case body (after the two
fallthroughs). -/
def fetchDefaultCase {α : Type} (sr : Request α) : Bool :=
  if sr.RequestType = StorageFetchIndexes ∧
      (sr.DB ≠ "" ∨ sr.Index ≠ "" ∨ sr.Entry ≠ "") then false
  else if sr.RequestType = StorageFetchEntries ∧ sr.Entry ≠ "" then false
  else true

/-- Request.Validate, fetch branch, body of `case sr.Entry == ""` (also
reached by fallthrough from the addressing case); falls through to the
default case body. -/
def fetchEntryEmptyCase {α : Type} (sr : Request α) : Bool :=
  if sr.RequestType = StorageFetchEntry then false else fetchDefaultCase sr

/-- Request.Validate, fetch branch, body of
`case sr.DB == "" || sr.Index == ""`; falls through to the entry case body. -/
def fetchAddrEmptyCase {α : Type} (sr : Request α) : Bool :=
  if sr.RequestType = StorageFetchEntries ∨ sr.RequestType = StorageFetchEntry
  then false
  else fetchEntryEmptyCase sr

/-- Request.Validate, fetch branch: the inner `switch` with fallthrough. -/
def validateFetch {α : Type} (sr : Request α) : Bool :=
  if sr.hasReply = false then false
  else if sr.DB = "" ∨ sr.Index = "" then fetchAddrEmptyCase sr
  else if sr.Entry = "" then fetchEntryEmptyCase sr
  else fetchDefaultCase sr

/-- Request.Validate, set branch, default case body. -/
def setDefaultCase {α : Type} (sr : Request α) : Bool :=
  if sr.RequestType = StorageSetIndex ∧ (sr.DB ≠ "" ∨ sr.Entry ≠ "") then false
  else true

/-- Request.Validate, set branch, body of `case sr.DB == "" || sr.Entry == ""`;
falls through to the default case body. -/
def setAddrEmptyCase {α : Type} (sr : Request α) : Bool :=
  if sr.RequestType = StorageSetEntry ∨ sr.RequestType = StorageSetDeleteEntry
  then false
  else setDefaultCase sr

/-- Request.Validate, set branch: the inner `switch` with fallthrough. -/
def validateSet {α : Type} (sr : Request α) : Bool :=
  if sr.hasReply = true then false
  else if sr.Index = "" then false
  else if sr.DB = "" ∨ sr.Entry = "" then setAddrEmptyCase sr
  else setDefaultCase sr

/-- The three fetch request types (the first case label of Validate). -/
def isFetchType (t : RequestConstant) : Bool :=
  t == StorageFetchIndexes || t == StorageFetchEntries || t == StorageFetchEntry

/-- The three set/delete request types (the second case label of Validate). -/
def isSetType (t : RequestConstant) : Bool :=
  t == StorageSetIndex || t == StorageSetEntry || t == StorageSetDeleteEntry

/-- The six request types enumerated in the outer switch of Validate. -/
def isValidatedType (t : RequestConstant) : Bool :=
  isFetchType t || isSetType t

/-- Request.Validate: the labelled outer switch; any type matching neither
case label falls off the switch and returns false. -/
def Request.Validate {α : Type} (sr : Request α) : Bool :=
  if isFetchType sr.RequestType then validateFetch sr
  else if isSetType sr.RequestType then validateSet sr
  else false

/-- Modelled from the spec: the per-type required/forbidden-field table
stated in claim C5 (spec section 4.1), compared against the code
Validate. -/
def validSpecTable {α : Type} (sr : Request α) : Bool :=
  if sr.RequestType = StorageFetchIndexes then
    sr.hasReply && sr.Index == "" && sr.DB == "" && sr.Entry == ""
  else if sr.RequestType = StorageFetchEntries then
    sr.hasReply && !(sr.Index == "") && !(sr.DB == "") && sr.Entry == ""
  else if sr.RequestType = StorageFetchEntry then
    sr.hasReply && !(sr.Index == "") && !(sr.DB == "") && !(sr.Entry == "")
  else if sr.RequestType = StorageSetIndex then
    !sr.hasReply && !(sr.Index == "") && sr.DB == "" && sr.Entry == ""
  else if sr.RequestType = StorageSetEntry ∨ sr.RequestType = StorageSetDeleteEntry then
    !sr.hasReply && !(sr.Index == "") && !(sr.DB == "") && !(sr.Entry == "")
  else false

/-- The namespace-wide request types of the first case of mainLoop (sent to a
random worker). -/
def isNamespaceType (t : RequestConstant) : Bool :=
  t == StorageFetchIndexes || t == StorageFetchEntries || t == StorageSetIndex

/-- The key-scoped request types of the second case of mainLoop (hashed to a
consistent worker). -/
def isKeyScopedType (t : RequestConstant) : Bool :=
  t == StorageSetDeleteEntry || t == StorageClearData || t == StorageSetData
    || t == StorageFetchEntry

/-- Where mainLoop sends a request: to worker channel `w`, or (for an
unknown type) dropped after an error log, closing the reply channel when
one is present. -/
inductive Route where
  | toWorker (w : Nat)
  | dropUnknown (replyClosed : Bool)
deriving DecidableEq

/-- One iteration of the routing switch of mainLoop.  `hash64` stands for
xxhash.ChecksumString64 and `rnd` for the value drawn from rand.Int31n
(modelled modulo numWorkers, matching its range). -/
def mainLoopRoute {α : Type} (hash64 : String → Nat) (numWorkers : Nat)
    (rnd : Nat) (r : Request α) : Route :=
  if isNamespaceType r.RequestType then Route.toWorker (rnd % numWorkers)
  else if isKeyScopedType r.RequestType then
    Route.toWorker (hash64 (r.Index ++ r.DB) % numWorkers)
  else Route.dropUnknown r.hasReply

/-- The worker a request is handed to, if any. -/
def assignedWorker {α : Type} (hash64 : String → Nat) (n rnd : Nat)
    (r : Request α) : Option Nat :=
  match mainLoopRoute hash64 n rnd r with
  | Route.toWorker w => some w
  | Route.dropUnknown _ => none

/-- The positions (in dispatcher-observation order) of the requests that
end up in the channel of worker `w`; the channel is FIFO, so this is also the
order in which worker `w` processes them. -/
def workerQueue {α : Type} (hash64 : String → Nat) (n : Nat)
    (rnds : Nat → Nat) (reqs : List (Request α)) (w : Nat) : List Nat :=
  (List.range reqs.length).filter fun i =>
    match reqs[i]? with
    | some r => assignedWorker hash64 n (rnds i) r == some w
    | none => false

/-- The sequential requestWorker loop over the queue of one worker: each
request is handled to completion before the next is taken. -/
def runWorkerQueue {α : Type} (cf : α → α) (imm0 : InMemoryModule α)
    (reqs : List (Request α)) (q : List Nat) : InMemoryModule α :=
  q.foldl (fun s i =>
    match reqs[i]? with
    | some r => (requestWorkerStep cf s r).state
    | none => s) imm0

end Modules

namespace Modules.TeamInMemory

/-- The team-based Datastore of the inmemory package (module-level store
behind moduleStorage). -/
structure Datastore (α : Type) where
  indexes : List (String × Index α)
deriving DecidableEq

/-- Datastore.Get: the Index, or nil (none) when absent. -/
def Datastore.Get {α : Type} (D : Datastore α) (name : String) :
    Option (Index α) :=
  mapLookup D.indexes name

/-- Datastore.GetIndex delegates to Get. -/
def Datastore.GetIndex {α : Type} (D : Datastore α) (name : String) :
    Option (Index α) :=
  D.Get name

/-- Datastore.NewIndex: unconditionally installs a fresh empty Index under
`name`, replacing whatever was there. -/
def Datastore.NewIndex {α : Type} (D : Datastore α) (name : String) :
    Datastore α :=
  ⟨mapInsert D.indexes name (⟨[]⟩ : Index α)⟩

/-- handlers.go addIndex (the team-based SetIndex handler): when GetIndex
returns nil (the index is absent) it warns "Index Exists" and returns;
when the index is present it calls NewIndex, replacing it. -/
def addIndex {α : Type} (D : Datastore α) (r : Request α) : Datastore α :=
  match D.GetIndex r.Index with
  | none => D
  | some _ => D.NewIndex r.Index

end Modules.TeamInMemory

namespace Modules

theorem mapLookup_mapInsert_self {β : Type} (m : List (String × β))
    (k : String) (v : β) : mapLookup (mapInsert m k v) k = some v := by
  induction m with
  | nil => simp [mapInsert, mapLookup]
  | cons p rest ih =>
    obtain ⟨k1, v1⟩ := p
    by_cases h : k1 = k
    · simp [mapInsert, mapLookup, h]
    · simp [mapInsert, mapLookup, h, ih]

theorem isNamespaceType_eq_false_of_key {t : RequestConstant}
    (h : isKeyScopedType t = true) : isNamespaceType t = false := by
  simp [isKeyScopedType] at h
  rcases h with ((h | h) | h) | h <;> subst h <;> decide

/-- C1: code bug.  The dispatcher routes a StorageFetchIndexes request to a
worker, but the requestTypeMap of requestWorker has no handler for it: the
request is skipped silently and its reply channel is never closed (no
events at all), contradicting the claim that every fetch request reply
channel is closed exactly once. -/
theorem fetchIndexes_reply_never_closed :
    mainLoopRoute (fun _ => 0) 10 0
      (⟨StorageFetchIndexes, true, "", "", "", 0, (none : Option Unit)⟩ :
        Request Unit) = Route.toWorker 0 ∧
    requestWorkerStep (fun a => a) (⟨[], true⟩ : InMemoryModule Unit)
      ⟨StorageFetchIndexes, true, "", "", "", 0, none⟩
      = ⟨⟨[], true⟩, [], false⟩ :=
  ⟨by decide, by decide⟩

/-- C2: code bug.  clearData on an existing index and database with an
absent entry key logs the lookup error but is missing a return: it then
calls ClearData() through the nil Data pointer and crashes, instead of
returning normally with the store unchanged. -/
theorem clearData_missing_entry_crashes :
    clearData (fun a => a)
      (⟨[("a", ⟨[("b", (⟨[]⟩ : Database Unit))]⟩)], true⟩ : InMemoryModule Unit)
      ⟨StorageClearData, false, "a", "b", "k", 0, none⟩
    = ⟨⟨[("a", ⟨[("b", ⟨[]⟩)]⟩)], true⟩, [], true⟩ := by
  decide

/-- C3: code bug.  The team-based handlers.go addIndex is inverted: a
SetIndex naming the existing index "a" replaces it with a fresh empty
Index (dropping database "b" and its entry "c"), while a SetIndex naming
the absent index "x" warns "Index Exists" and creates nothing. -/
theorem team_addIndex_inverted :
    (TeamInMemory.addIndex
      (⟨[("a", ⟨[("b", ⟨[("c", ⟨some ()⟩)]⟩)]⟩)]⟩ : TeamInMemory.Datastore Unit)
      ⟨StorageSetIndex, false, "a", "", "", 0, none⟩).indexes
      = [("a", (⟨[]⟩ : Index Unit))] ∧
    TeamInMemory.addIndex
      (⟨[("a", ⟨[("b", ⟨[("c", ⟨some ()⟩)]⟩)]⟩)]⟩ : TeamInMemory.Datastore Unit)
      ⟨StorageSetIndex, false, "x", "", "", 0, none⟩
      = ⟨[("a", ⟨[("b", ⟨[("c", ⟨some ()⟩)]⟩)]⟩)]⟩ :=
  ⟨by decide, by decide⟩

/-- C5: for every request whose type is one of the six types of the
switch, Validate returns true exactly when the per-type
required/forbidden-field table holds. -/
theorem Validate_matches_spec_table {α : Type} (sr : Request α)
    (h : isValidatedType sr.RequestType = true) :
    sr.Validate = validSpecTable sr := by
  have h6 : sr.RequestType = StorageFetchIndexes ∨
      sr.RequestType = StorageFetchEntries ∨
      sr.RequestType = StorageFetchEntry ∨
      sr.RequestType = StorageSetIndex ∨
      sr.RequestType = StorageSetEntry ∨
      sr.RequestType = StorageSetDeleteEntry := by
    simp [isValidatedType, isFetchType, isSetType] at h
    tauto
  obtain ⟨t, hasR, i, d, e, ts, o⟩ := sr
  simp only at h6
  rcases h6 with ht | ht | ht | ht | ht | ht <;> subst ht <;>
    by_cases hr : hasR <;> by_cases hi : i = "" <;> by_cases hd : d = "" <;>
      by_cases he : e = "" <;>
        simp_all [Request.Validate, validateFetch, validateSet,
          fetchAddrEmptyCase, fetchEntryEmptyCase, fetchDefaultCase,
          setAddrEmptyCase, setDefaultCase, isFetchType, isSetType,
          validSpecTable, StorageSetIndex, StorageSetData, StorageSetEntry,
          StorageSetDeleteEntry, StorageFetchIndexes, StorageFetchEntries,
          StorageFetchEntry]

theorem Validate_matches_spec_table_w :
    isValidatedType (StorageFetchEntry) = true ∧
    (⟨StorageFetchEntry, true, "a", "b", "c", 0, (none : Option Unit)⟩ :
      Request Unit).Validate
      = validSpecTable
        (⟨StorageFetchEntry, true, "a", "b", "c", 0, (none : Option Unit)⟩ :
          Request Unit) :=
  ⟨by decide, Validate_matches_spec_table _ (by decide)⟩

/-- C6: mainLoop sends every key-scoped request to the worker at position
hash64(Index + DB) mod numWorkers — a function of the index and database
names only, so two key-scoped requests with the same pair are routed
identically, independent of the random draw — while namespace-wide
requests go to the worker selected by the random draw. -/
theorem mainLoop_routing {α : Type} (hash64 : String → Nat) (n rnd : Nat)
    (r : Request α) (hk : isKeyScopedType r.RequestType = true) :
    mainLoopRoute hash64 n rnd r
      = Route.toWorker (hash64 (r.Index ++ r.DB) % n) ∧
    (∀ (r2 : Request α) (rnd2 : Nat), isKeyScopedType r2.RequestType = true →
      r2.Index = r.Index → r2.DB = r.DB →
      mainLoopRoute hash64 n rnd2 r2 = mainLoopRoute hash64 n rnd r) ∧
    (∀ (r3 : Request α) (rnd3 : Nat), isNamespaceType r3.RequestType = true →
      mainLoopRoute hash64 n rnd3 r3 = Route.toWorker (rnd3 % n)) := by
  have hns := isNamespaceType_eq_false_of_key hk
  refine ⟨?_, ?_, ?_⟩
  · simp [mainLoopRoute, hns, hk]
  · intro r2 rnd2 hk2 hI hD
    have hns2 := isNamespaceType_eq_false_of_key hk2
    simp [mainLoopRoute, hns, hk, hns2, hk2, hI, hD]
  · intro r3 rnd3 hn3
    simp [mainLoopRoute, hn3]

theorem mainLoop_routing_w :
    isKeyScopedType (StorageSetData) = true ∧
    mainLoopRoute (fun s => s.length) 10 7
      (⟨StorageSetData, false, "a", "b", "c", 0, (none : Option Unit)⟩ :
        Request Unit)
      = Route.toWorker ((fun s : String => s.length) ("a" ++ "b") % 10) :=
  ⟨by decide, (mainLoop_routing (fun s => s.length) 10 7 _ (by decide)).1⟩

/-- C10: any request whose type is outside the six types of the
switch fails validation regardless of its fields; in particular
StorageClearData — although it is key-scoped-routed by mainLoop and has a
registered handler in the type map of requestWorker — can never pass
validation. -/
theorem unhandled_type_never_validates {α : Type} (sr : Request α)
    (h : isValidatedType sr.RequestType = false) :
    sr.Validate = false ∧
    (requestTypeMap (fun a : α => a) StorageClearData).isSome = true ∧
    isKeyScopedType StorageClearData = true ∧
    isValidatedType StorageClearData = false := by
  refine ⟨?_, ?_, by decide, by decide⟩
  · unfold Request.Validate
    simp only [isValidatedType, Bool.or_eq_false_iff] at h
    simp [h.1, h.2]
  · rfl

theorem addDataBody_stores {α : Type} (imm : InMemoryModule α)
    (r : Request α) (idx : Index α)
    (hidx : mapLookup imm.indexes r.Index = some idx) :
    storedEntry (addDataBody imm r).state r.Index r.DB r.Entry
      = some ⟨r.Object⟩ ∧
    (addDataBody imm r).crashed = false ∧
    (addDataBody imm r).replyEvents = [] := by
  unfold addDataBody
  rw [hidx]
  cases hdb : mapLookup idx.db r.DB with
  | none =>
    simp [Index.GetDB, hdb, storedEntry, mapLookup_mapInsert_self,
      Index.AddDB, Database.AddEntry, NewDatabase]
  | some db =>
    simp [Index.GetDB, hdb, storedEntry, mapLookup_mapInsert_self,
      Index.AddDB, Database.AddEntry]

theorem addData_stores {α : Type} (imm : InMemoryModule α) (r : Request α)
    (hauto : imm.autoIndex = true) :
    storedEntry (addData imm r).state r.Index r.DB r.Entry
      = some ⟨r.Object⟩ ∧
    (addData imm r).crashed = false ∧
    (addData imm r).replyEvents = [] := by
  cases hidx : mapLookup imm.indexes r.Index with
  | none =>
    have h1 : addData imm r = addDataBody (addIndex imm r).state r := by
      unfold addData
      rw [hidx]
      simp [hauto]
    have h2 : mapLookup (addIndex imm r).state.indexes r.Index
        = some NewIndex := by
      unfold addIndex
      rw [hidx]
      simp [mapLookup_mapInsert_self]
    rw [h1]
    exact addDataBody_stores _ _ _ h2
  | some idx =>
    have h1 : addData imm r = addDataBody imm r := by
      unfold addData
      rw [hidx]
    rw [h1]
    exact addDataBody_stores _ _ _ hidx

theorem fetchEntry_of_storedEntry {α : Type} (imm : InMemoryModule α)
    (r : Request α) (d : Data α)
    (h : storedEntry imm r.Index r.DB r.Entry = some d) :
    fetchEntry imm r
      = ⟨imm, [ReplyEvent.sent (ReplyVal.dataVal d), ReplyEvent.closed],
        false⟩ := by
  unfold storedEntry at h
  unfold fetchEntry
  cases hidx : mapLookup imm.indexes r.Index with
  | none => rw [hidx] at h; simp at h
  | some idx =>
    rw [hidx] at h
    simp only at h
    cases hdb : mapLookup idx.db r.DB with
    | none => rw [hdb] at h; simp at h
    | some db =>
      rw [hdb] at h
      simp only at h
      simp [Index.GetDB, hdb, Database.GetEntry, h]

/-- C4: after a SetData request storing payload P under (i, d, k) is
processed by a worker (with auto-index on), a subsequently processed
FetchEntry request for (i, d, k) sends the stored Data wrapping P on its
reply channel and then closes it, and neither step crashes. -/
theorem setEntry_then_fetchEntry {α : Type} (cf : α → α)
    (imm : InMemoryModule α) (P : α) (i d k : String) (t1 t2 : Int)
    (hauto : imm.autoIndex = true) :
    requestWorkerStep cf
      ((requestWorkerStep cf imm
        ⟨StorageSetData, false, i, d, k, t1, some P⟩).state)
      ⟨StorageFetchEntry, true, i, d, k, t2, none⟩
      = ⟨(requestWorkerStep cf imm
          ⟨StorageSetData, false, i, d, k, t1, some P⟩).state,
        [ReplyEvent.sent (ReplyVal.dataVal ⟨some P⟩), ReplyEvent.closed],
        false⟩ ∧
    (requestWorkerStep cf imm
      ⟨StorageSetData, false, i, d, k, t1, some P⟩).crashed = false := by
  have hset : requestWorkerStep cf imm
      ⟨StorageSetData, false, i, d, k, t1, some P⟩
      = addData imm ⟨StorageSetData, false, i, d, k, t1, some P⟩ := by
    simp [requestWorkerStep, requestTypeMap, StorageSetData, StorageSetIndex]
  have hfetch : ∀ s : InMemoryModule α,
      requestWorkerStep cf s ⟨StorageFetchEntry, true, i, d, k, t2, none⟩
      = fetchEntry s ⟨StorageFetchEntry, true, i, d, k, t2, none⟩ := by
    intro s
    simp [requestWorkerStep, requestTypeMap, StorageFetchEntry,
      StorageSetIndex, StorageSetData, StorageClearData,
      StorageSetDeleteEntry, StorageFetchEntries]
  obtain ⟨h1, h2, _⟩ :=
    addData_stores imm ⟨StorageSetData, false, i, d, k, t1, some P⟩ hauto
  rw [hset, hfetch]
  exact ⟨fetchEntry_of_storedEntry _ _ _ h1, h2⟩

theorem setEntry_then_fetchEntry_w :
    (⟨[], true⟩ : InMemoryModule Unit).autoIndex = true ∧
    requestWorkerStep (fun a => a)
      ((requestWorkerStep (fun a => a) (⟨[], true⟩ : InMemoryModule Unit)
        ⟨StorageSetData, false, "a", "b", "c", 0, some ()⟩).state)
      ⟨StorageFetchEntry, true, "a", "b", "c", 1, none⟩
      = ⟨(requestWorkerStep (fun a => a) (⟨[], true⟩ : InMemoryModule Unit)
          ⟨StorageSetData, false, "a", "b", "c", 0, some ()⟩).state,
        [ReplyEvent.sent (ReplyVal.dataVal ⟨some ()⟩), ReplyEvent.closed],
        false⟩ :=
  ⟨rfl,
    (setEntry_then_fetchEntry (fun a => a) (⟨[], true⟩ : InMemoryModule Unit)
      () "a" "b" "c" 0 1 rfl).1⟩

/-- C8: a SetData request naming an index absent from the store is dropped
with the store (and result) completely unchanged when autoIndex is off —
in particular the index is never created — and when autoIndex is on, the
missing index and database are created and the entry is stored. -/
theorem addData_autoIndex_behavior {α : Type} (imm : InMemoryModule α)
    (r : Request α) (hmiss : mapLookup imm.indexes r.Index = none) :
    (imm.autoIndex = false → addData imm r = ⟨imm, [], false⟩) ∧
    (imm.autoIndex = true →
      storedEntry (addData imm r).state r.Index r.DB r.Entry
        = some ⟨r.Object⟩ ∧
      (addData imm r).crashed = false) := by
  constructor
  · intro hoff
    unfold addData
    rw [hmiss]
    simp [hoff]
  · intro hon
    obtain ⟨h1, h2, _⟩ := addData_stores imm r hon
    exact ⟨h1, h2⟩

theorem addData_autoIndex_behavior_w :
    mapLookup (⟨[], false⟩ : InMemoryModule Unit).indexes "a" = none ∧
    addData (⟨[], false⟩ : InMemoryModule Unit)
      ⟨StorageSetData, false, "a", "b", "c", 0, some ()⟩
      = ⟨⟨[], false⟩, [], false⟩ :=
  ⟨rfl,
    (addData_autoIndex_behavior (⟨[], false⟩ : InMemoryModule Unit)
      ⟨StorageSetData, false, "a", "b", "c", 0, some ()⟩ rfl).1 rfl⟩

theorem keyScoped_route {α : Type} (hash64 : String → Nat) (n rnd : Nat)
    (r : Request α) (hk : isKeyScopedType r.RequestType = true) :
    mainLoopRoute hash64 n rnd r
      = Route.toWorker (hash64 (r.Index ++ r.DB) % n) := by
  have hns := isNamespaceType_eq_false_of_key hk
  simp [mainLoopRoute, hns, hk]

theorem workerQueue_pairwise {α : Type} (hash64 : String → Nat) (n : Nat)
    (rnds : Nat → Nat) (reqs : List (Request α)) (w : Nat) :
    (workerQueue hash64 n rnds reqs w).Pairwise (· < ·) :=
  (List.pairwise_lt_range reqs.length).sublist (List.filter_sublist _)

theorem indexOf_lt_of_pairwise {l : List Nat} {i j : Nat}
    (hp : l.Pairwise (· < ·)) (hi : i ∈ l) (hj : j ∈ l) (hij : i < j) :
    l.indexOf i < l.indexOf j := by
  induction l with
  | nil => cases hi
  | cons a t ih =>
    rw [List.pairwise_cons] at hp
    obtain ⟨ha, hp2⟩ := hp
    rcases List.mem_cons.mp hi with hia | hit
    · subst hia
      rcases List.mem_cons.mp hj with hja | hjt
      · omega
      · have hji : j ≠ i := by omega
        rw [List.indexOf_cons_self, List.indexOf_cons_ne _ (Ne.symm hji)]
        exact Nat.succ_pos _
    · have hai : a < i := ha i hit
      rcases List.mem_cons.mp hj with hja | hjt
      · exact absurd hai (by omega)
      · have hia2 : a ≠ i := by omega
        have hja2 : a ≠ j := by have := ha j hjt; omega
        rw [List.indexOf_cons_ne _ hia2, List.indexOf_cons_ne _ hja2]
        exact Nat.succ_lt_succ (ih hp2 hit hjt)

theorem mem_workerQueue {α : Type} {hash64 : String → Nat} {n : Nat}
    {rnds : Nat → Nat} {reqs : List (Request α)} {i w : Nat}
    {r : Request α} (hi : reqs[i]? = some r)
    (hw : assignedWorker hash64 n (rnds i) r = some w) :
    i ∈ workerQueue hash64 n rnds reqs w := by
  unfold workerQueue
  apply List.mem_filter.mpr
  constructor
  · apply List.mem_range.mpr
    rcases List.getElem?_eq_some.mp hi with ⟨h1, _⟩
    exact h1
  · simp [hi, hw]

/-- C7: two key-scoped requests for the same (index, database) pair,
observed by the dispatcher at positions i < j, are assigned to the same
worker w, both appear in the FIFO queue of w, and the earlier one occupies the
strictly earlier queue position — so the sequential worker loop
(runWorkerQueue) fully processes the first before it begins the second. -/
theorem fifo_per_pair {α : Type} (hash64 : String → Nat) (n : Nat)
    (_hn : 0 < n) (rnds : Nat → Nat) (reqs : List (Request α)) (i j : Nat)
    (ri rj : Request α) (hij : i < j)
    (hi : reqs[i]? = some ri) (hj : reqs[j]? = some rj)
    (hki : isKeyScopedType ri.RequestType = true)
    (hkj : isKeyScopedType rj.RequestType = true)
    (hI : ri.Index = rj.Index) (hD : ri.DB = rj.DB) :
    ∃ w, assignedWorker hash64 n (rnds i) ri = some w ∧
      assignedWorker hash64 n (rnds j) rj = some w ∧
      i ∈ workerQueue hash64 n rnds reqs w ∧
      j ∈ workerQueue hash64 n rnds reqs w ∧
      (workerQueue hash64 n rnds reqs w).indexOf i
        < (workerQueue hash64 n rnds reqs w).indexOf j := by
  have hwi : assignedWorker hash64 n (rnds i) ri
      = some (hash64 (ri.Index ++ ri.DB) % n) := by
    unfold assignedWorker
    rw [keyScoped_route hash64 n (rnds i) ri hki]
  have hwj : assignedWorker hash64 n (rnds j) rj
      = some (hash64 (ri.Index ++ ri.DB) % n) := by
    unfold assignedWorker
    rw [keyScoped_route hash64 n (rnds j) rj hkj, hI, hD]
  have hmi := mem_workerQueue hi hwi
  have hmj := mem_workerQueue hj hwj
  exact ⟨hash64 (ri.Index ++ ri.DB) % n, hwi, hwj, hmi, hmj,
    indexOf_lt_of_pairwise (workerQueue_pairwise hash64 n rnds reqs _)
      hmi hmj hij⟩

theorem fifo_per_pair_w :
    (0 : Nat) < 2 ∧ (0 : Nat) < 1 ∧
    ([⟨StorageSetData, false, "a", "b", "c", 0, some ()⟩,
      ⟨StorageSetData, false, "a", "b", "d", 0, some ()⟩] :
        List (Request Unit))[0]?
      = some ⟨StorageSetData, false, "a", "b", "c", 0, some ()⟩ ∧
    (∃ w, assignedWorker (fun s => s.length) 2 0
        (⟨StorageSetData, false, "a", "b", "c", 0, some ()⟩ : Request Unit)
        = some w ∧
      assignedWorker (fun s => s.length) 2 1
        (⟨StorageSetData, false, "a", "b", "d", 0, some ()⟩ : Request Unit)
        = some w ∧
      0 ∈ workerQueue (fun s => s.length) 2 (fun x => x)
        [⟨StorageSetData, false, "a", "b", "c", 0, some ()⟩,
          ⟨StorageSetData, false, "a", "b", "d", 0, some ()⟩] w ∧
      1 ∈ workerQueue (fun s => s.length) 2 (fun x => x)
        [⟨StorageSetData, false, "a", "b", "c", 0, some ()⟩,
          ⟨StorageSetData, false, "a", "b", "d", 0, some ()⟩] w ∧
      (workerQueue (fun s => s.length) 2 (fun x => x)
        [⟨StorageSetData, false, "a", "b", "c", 0, some ()⟩,
          ⟨StorageSetData, false, "a", "b", "d", 0, some ()⟩] w).indexOf 0
        < (workerQueue (fun s => s.length) 2 (fun x => x)
          [⟨StorageSetData, false, "a", "b", "c", 0, some ()⟩,
            ⟨StorageSetData, false, "a", "b", "d", 0, some ()⟩] w).indexOf 1) :=
  ⟨by decide, by decide, by decide,
    fifo_per_pair (fun s => s.length) 2 (by decide) (fun x => x)
      [⟨StorageSetData, false, "a", "b", "c", 0, some ()⟩,
        ⟨StorageSetData, false, "a", "b", "d", 0, some ()⟩] 0 1
      ⟨StorageSetData, false, "a", "b", "c", 0, some ()⟩
      ⟨StorageSetData, false, "a", "b", "d", 0, some ()⟩
      (by decide) (by decide) (by decide) (by decide) (by decide)
      (by decide) (by decide)⟩

theorem unhandled_type_never_validates_w :
    isValidatedType
      ((⟨StorageClearData, false, "a", "b", "c", 0, (none : Option Unit)⟩ :
        Request Unit).RequestType) = false ∧
    (⟨StorageClearData, false, "a", "b", "c", 0, (none : Option Unit)⟩ :
      Request Unit).Validate = false :=
  ⟨by decide,
    (unhandled_type_never_validates
      (⟨StorageClearData, false, "a", "b", "c", 0, none⟩ : Request Unit)
      (by decide)).1⟩

end Modules
